import Mathlib

/-!
Verification of the adaptive VLM inference client and its cache/mirror
subsystem (scripts/screen_explain.py and scripts/helper/vlm.py).

Modelling conventions:
- Machine integers are Nat (all quantities involved are non-negative:
  file sizes, mtimes in nanoseconds, batch sizes, context sizes).
- SHA-256 digests are modelled by their preimage material string: the code
  computes hashlib.sha256(material).hexdigest(), and the model identifies a
  key with its material.  Equal material gives equal digests; distinct
  material gives distinct digests under the standard collision-freeness
  assumption, which the development states explicitly where it is used.
- Filesystem state is an explicit map from file name to file stat.
- Exceptions are modelled as values of an explicit error type, and
  fallible code returns Except.
-/

namespace AiTools

/-- One image file stat triple as read by screen_explain (p.name, st.st_size,
st.st_mtime_ns).  The code never reads more than these three fields when it
computes cache keys. -/
structure FileStat where
  name : String
  size : Nat
  mtime_ns : Nat
deriving DecidableEq, Repr

/-- A source image as seen by screen_explain.main: a directory, a stem, an
extension (suffix), and the stat data of the file.  Path = dir/stem+ext. -/
structure SrcFile where
  dir : String
  stem : String
  ext : String
  size : Nat
  mtime_ns : Nat
deriving DecidableEq, Repr

/-- Python Path.name: the final component, stem plus suffix.  Note it does
not include the directory. -/
def SrcFile.name (f : SrcFile) : String := f.stem ++ f.ext

/-- The stat triple screen_explain reads from a source file. -/
def SrcFile.stat (f : SrcFile) : FileStat :=
  { name := f.name, size := f.size, mtime_ns := f.mtime_ns }

/-- One signature part of _fast_key: f-string "{p.name}|{st.st_size}|{st.st_mtime_ns}". -/
def fastSigPart (f : FileStat) : String :=
  f.name ++ "|" ++ toString f.size ++ "|" ++ toString f.mtime_ns

/-- _fast_key (screen_explain.py lines 267-275): the SHA-256 material
"model:{model_sig}\nfiles:{','.join(sig_parts)}\nprompt:{prompt}".
The digest is modelled by the material (see file header). -/
def fast_key (imgs : List FileStat) (prompt model_sig : String) : String :=
  "model:" ++ model_sig ++ "\nfiles:" ++
    String.intercalate "," (imgs.map fastSigPart) ++ "\nprompt:" ++ prompt

/-- _fast_key applied to the stats of the source files, as main does. -/
def fast_key_of_sources (srcs : List SrcFile) (prompt model_sig : String) : String :=
  fast_key (srcs.map SrcFile.stat) prompt model_sig

/-- _content_key (screen_explain.py lines 278-286): the body is literally
"return _fast_key(imgs, prompt, model_sig)", applied by main to the
mirrored paths, so it hashes each mirror file's (name, size, mtime_ns). -/
def content_key (mirrored : List FileStat) (prompt model_sig : String) : String :=
  fast_key mirrored prompt model_sig

/-- Python f"{idx:02d}": zero-pad to width 2. -/
def pad2 (n : Nat) : String :=
  if n < 10 then "0" ++ toString n else toString n

/-- Python str.replace(" ", "_"): the pattern is a single character, so the
replacement is a character-wise map. -/
def replaceSpaces (s : String) : String :=
  String.mk (s.data.map fun c => if c = ' ' then '_' else c)

/-- Python str.lower(), character-wise. -/
def lowerStr (s : String) : String :=
  String.mk (s.data.map Char.toLower)

/-- _mirror_name_for (screen_explain.py lines 208-211):
f"{idx:02d}__{safe_stem}__{st.st_size}__{st.st_mtime_ns}{src.suffix.lower()}"
where safe_stem replaces spaces with underscores. -/
def mirror_name_for (src : SrcFile) (idx : Nat) : String :=
  pad2 idx ++ "__" ++ replaceSpaces src.stem ++ "__" ++
    toString src.size ++ "__" ++ toString src.mtime_ns ++ lowerStr src.ext

/-- _ensure_mirrored (screen_explain.py lines 214-222): for each source at
ordinal i, compute the deterministic mirror name; if a file of that name is
already present in the mirror directory keep its stat, otherwise
shutil.copyfile creates a new file whose size is the source size and whose
mtime is the copy time (copyfile copies content only and does NOT preserve
the source mtime).  fs maps a mirror file name to its stat when present;
now is the wall-clock time of the copy in mtime_ns units. -/
def ensure_mirrored (fs : String → Option FileStat) (now : Nat)
    (srcs : List SrcFile) : List FileStat :=
  (srcs.enum.map fun p =>
    let nm := mirror_name_for p.2 p.1
    match fs nm with
    | some st => st
    | none => { name := nm, size := p.2.size, mtime_ns := now })

/-! ### Image snapping (helper/vlm.py) -/

/-- The inner _snap_one of _snap_size (vlm.py lines 126-130), after the
clamps snap_mult = max(1, snap_mult) and snap_min = max(1, snap_min):
if x <= snap_min return snap_min, else max(snap_min, (x // snap_mult) * snap_mult). -/
def snap_one (snap_mult snap_min x : Nat) : Nat :=
  let m := max 1 snap_mult
  let sm := max 1 snap_min
  if x ≤ sm then sm else max sm (x / m * m)

/-- One coordinate of _snap_size (vlm.py lines 118-134): sw = max(1, _snap_one(w)). -/
def snap_size1 (snap_mult snap_min x : Nat) : Nat :=
  max 1 (snap_one snap_mult snap_min x)

/-- The snap step of _resize_percent_and_snap (vlm.py lines 152-157), per
coordinate: sw, _ = _snap_size(rw, rh); sw = min(sw, rw); sw = max(1, sw).
This is the dimension actually used for the post-snap resize. -/
def snap_step (snap_mult snap_min x : Nat) : Nat :=
  max 1 (min (snap_size1 snap_mult snap_min x) x)

/-! ### Context-size selection (helper/vlm.py lines 424-432) -/

/-- DEFAULT_MAX_CTX (vlm.py line 37): hard cap for auto-context. -/
def DEFAULT_MAX_CTX : Nat := 8196

/-- The effective num_ctx computation of ollama_chat_with_images
(vlm.py lines 424-432): if the caller passed num_ctx (not None, > 0), use it
unchanged; otherwise effective_num_ctx = max_ctx.  The prepared image sizes
are logged in the else branch but are NOT used in the computation; the
parameter is kept to state that fact. -/
def effective_num_ctx (num_ctx : Option Nat) (max_ctx : Nat)
    (sizes : List (Nat × Nat)) : Nat :=
  match num_ctx with
  | some n => if 0 < n then n else max_ctx
  | none => max_ctx

/-! ### Output heuristics and error classification (helper/vlm.py) -/

/-- Occurrence of pat as a contiguous sublist of hay (Python "pat in s"
on the character level; the empty pattern occurs everywhere). -/
def hasSub (hay pat : List Char) : Bool :=
  match hay with
  | [] => pat.isEmpty
  | _ :: t => pat.isPrefixOf hay || hasSub t pat

/-- Python substring test "pat in s". -/
def containsSub (s pat : String) : Bool :=
  hasSub s.data pat.data

/-- Python str.strip(): drop whitespace from both ends. -/
def pyStrip (s : String) : String :=
  String.mk (((s.data.dropWhile Char.isWhitespace).reverse.dropWhile
    Char.isWhitespace).reverse)

/-- The fixed marker set of _looks_like_template_leak (vlm.py lines 205-211). -/
def leakMarkers : List String :=
  ["<|im_start|>", "<|im_end|>", "<|assistant|>", "<|user|>", "<|system|>"]

/-- _looks_like_template_leak (vlm.py lines 201-212): strip, empty strings
are not leaks, otherwise any marker occurring as a substring is a leak. -/
def looks_like_template_leak (content : String) : Bool :=
  let c := pyStrip content
  if c = "" then false
  else leakMarkers.any (fun m => containsSub c m)

/-- The usability test of the ladder (vlm.py line 475): output is unusable
when out.strip() == "" or _looks_like_template_leak(out). -/
def usable_output (out : String) : Bool :=
  !(pyStrip out == "" || looks_like_template_leak out)

/-- Exceptions crossing the ladder, as classified values: requests.Timeout,
requests.ConnectionError, requests.HTTPError (with status code and response
body), the RuntimeError for unusable output (carrying the offending output),
the RuntimeError raised when no attempt recorded an error, and any other
exception. -/
inductive Exc where
  | timeout : Exc
  | connectionError : Exc
  | httpError (status : Nat) (body : String) : Exc
  | unusableOutput (out : String) : Exc
  | unknownFailure : Exc
  | otherError (msg : String) : Exc
deriving DecidableEq, Repr

/-- _is_retriable_error (vlm.py lines 230-238): Timeout and ConnectionError
are retriable; an HTTPError is retriable iff its status code is >= 500;
everything else is not. -/
def is_retriable_error : Exc → Bool
  | Exc.timeout => true
  | Exc.connectionError => true
  | Exc.httpError status _ => 500 ≤ status
  | _ => false

/-- _looks_like_endpoint_mismatch (vlm.py lines 241-259): 404 always; 400
when the lowercased body contains "unknown field", "invalid" or "messages". -/
def looks_like_endpoint_mismatch : Exc → Bool
  | Exc.httpError 404 _ => true
  | Exc.httpError 400 body =>
      let bl := lowerStr body
      containsSub bl "unknown field" || containsSub bl "invalid" || containsSub bl "messages"
  | _ => false

/-! ### The retry ladder (ollama_chat_with_images, vlm.py lines 388-489) -/

/-- DEFAULT_NUM_BATCH (vlm.py line 36). -/
def DEFAULT_NUM_BATCH : Nat := 64

/-- The scale ladder (vlm.py line 388), scales as integer percents:
[0.90, 0.75] in quality mode, else [0.60, 0.50, 0.40, 0.30]. -/
def ladder_scales (quality_mode : Bool) : List Nat :=
  if quality_mode then [90, 75] else [60, 50, 40, 30]

/-- eff_batch (vlm.py line 460): current_batch if current_batch > 0 else
DEFAULT_NUM_BATCH.  current_batch = 0 models the "unset" state in which the
num_batch option is omitted from the request. -/
def effBatch (b : Nat) : Nat :=
  if b = 0 then DEFAULT_NUM_BATCH else b

deriving instance DecidableEq for Except

/-- What one while-loop iteration gets from the outside world: either image
preparation raised (vlm.py lines 408-422), or the two possible endpoint
calls each produced a result (the second one is consulted only after a
shape-mismatch failure of the first, vlm.py lines 434-454). -/
inductive IterStep where
  | prepFail (e : Exc) : IterStep
  | calls (c1 c2 : Except Exc String) : IterStep
deriving DecidableEq, Repr

/-- The endpoint preference loop (vlm.py lines 443-454): try the preferred
endpoint; on an exception that looks like an endpoint mismatch try the
alternate once and take its result either way; on any other exception stop
with that exception. -/
def endpointPhase (c1 c2 : Except Exc String) : Except Exc String :=
  match c1 with
  | Except.ok out => Except.ok out
  | Except.error e => if looks_like_endpoint_mismatch e then c2 else Except.error e

/-- One recorded backend attempt: the scale index and percent it ran at, the
current_batch variable, and the effective batch value. -/
structure Att where
  scaleIdx : Nat
  scalePct : Nat
  batch : Nat
  eff : Nat
deriving DecidableEq, Repr

/-- Result of a ladder run.  incomplete is a model artifact: the supplied
script of iteration inputs ran out before the loop returned (the real loop
always receives an outcome per iteration). -/
inductive RunResult where
  | ok (out : String) : RunResult
  | err (e : Exc) : RunResult
  | incomplete : RunResult
deriving DecidableEq, Repr

/-- The retry-ladder loop of ollama_chat_with_images (vlm.py lines 401-488),
driven by a script of per-iteration inputs.  State: scale index i,
current_batch b, last_err le.  Returns the result, the list of backend
attempts in order, and the list of last_err assignments in order.
Faithful transcription of the loop body:
- scale exhaustion raises last_err (or the generic unknown-failure error);
- preparation failure records the error and advances the scale;
- a net endpoint failure that is retriable halves the effective batch down
  to a floor of 16 and retries the same scale, or advances the scale once
  the floor is reached; a non-retriable failure is raised immediately;
- an unusable output records an error (the full response is also appended
  to the unusable-outputs diagnostic log, a side effect not modelled) and
  advances the scale; a usable output is returned. -/
def runLadder (scales : List Nat) : List IterStep → Nat → Nat → Option Exc →
    RunResult × List Att × List Exc
  | [], i, _, le =>
    match scales[i]? with
    | none => (RunResult.err (le.getD Exc.unknownFailure), [], [])
    | some _ => (RunResult.incomplete, [], [])
  | IterStep.prepFail e :: rest, i, b, le =>
    match scales[i]? with
    | none => (RunResult.err (le.getD Exc.unknownFailure), [], [])
    | some _ =>
      let r := runLadder scales rest (i + 1) b (some e)
      (r.1, r.2.1, e :: r.2.2)
  | IterStep.calls c1 c2 :: rest, i, b, le =>
    match scales[i]? with
    | none => (RunResult.err (le.getD Exc.unknownFailure), [], [])
    | some scale =>
      let att : Att := { scaleIdx := i, scalePct := scale, batch := b, eff := effBatch b }
      match endpointPhase c1 c2 with
      | Except.ok out =>
        if usable_output out then (RunResult.ok out, [att], [])
        else
          let e := Exc.unusableOutput out
          let r := runLadder scales rest (i + 1) b (some e)
          (r.1, att :: r.2.1, e :: r.2.2)
      | Except.error e =>
        if is_retriable_error e then
          if 16 < effBatch b then
            let r := runLadder scales rest i (max 16 (effBatch b / 2)) (some e)
            (r.1, att :: r.2.1, e :: r.2.2)
          else
            let r := runLadder scales rest (i + 1) b (some e)
            (r.1, att :: r.2.1, e :: r.2.2)
        else (RunResult.err e, [att], [e])

/-! ### Parsing and the cache flow (screen_explain.py) -/

/-- UIElement (screen_explain.py lines 98-101). -/
structure UIElement where
  name : String
  description : String
  status : String := "visible"
deriving DecidableEq, Repr

/-- Issue (screen_explain.py lines 103-107). -/
structure Issue where
  title : String
  severity : String := "medium"
  description : String
  recommendation : String
deriving DecidableEq, Repr

/-- ScreenAnalysis (screen_explain.py lines 109-118). -/
structure ScreenAnalysis where
  summary : String
  ui_elements : List UIElement := []
  detected_text : List String := []
  issues : List Issue := []
  next_checks : List String := []
  raw_output : String := ""
  is_raw_error : Bool := false
deriving DecidableEq, Repr

/-- _make_fallback_analysis (screen_explain.py lines 326-332). -/
def make_fallback_analysis (raw : String) : ScreenAnalysis :=
  { summary := "Raw output (parsing failed)", raw_output := raw, is_raw_error := true }

/-- safe_parse_model (helper/json_utils.py lines 86-110).  tryParse
abstracts json.loads(extract_json_object(raw)) followed by the dict check
and ScreenAnalysis(**data): it returns some analysis when that pipeline
succeeds and none when any step of it fails.  Every failure path of the
Python function is caught and answered with the fallback; the function
never raises. -/
def safe_parse_model (tryParse : String → Option ScreenAnalysis)
    (fallback_factory : String → ScreenAnalysis) (raw : String) : ScreenAnalysis :=
  match tryParse raw with
  | some a => a
  | none => fallback_factory raw

/-- The durable cache state: the index file (fast key to content key) and
the per-content-key result files, each already validated against the
current ScreenAnalysis schema (an unreadable or schema-invalid result file
is modelled as absent, matching the try/except fall-through in main). -/
structure World where
  index : String → Option String
  store : String → Option ScreenAnalysis

/-- Outcome of one invocation of main. -/
inductive MainResult where
  | cachedResult (a : ScreenAnalysis) : MainResult
  | freshResult (a : ScreenAnalysis) : MainResult
  | failedResult (e : Exc) : MainResult
deriving DecidableEq, Repr

/-- The cache/inference flow of screen_explain.main (lines 408-467):
1. compute the FastKey from the source file stats;
2. unless force_new, look it up in the index and return the stored result
   on a hit (no mirroring, no backend call);
3. on a miss, mirror the inputs (and prune the mirror directory, modelled
   separately by prune_mirror: pruning does not change the stats returned
   by _ensure_mirrored), compute the ContentKey from the mirror stats, and
   invoke the backend unconditionally — the ladder outcome is the
   inference argument;
4. on inference failure, exit without touching index or store;
5. on success, parse with safe_parse_model (falling back to
   _make_fallback_analysis), write the result under the ContentKey and the
   index entry FastKey ↦ ContentKey.
The returned Bool records whether the backend was invoked. -/
def screen_explain_main (w : World) (forceNew : Bool) (srcs : List SrcFile)
    (prompt model_sig : String) (fs : String → Option FileStat) (now : Nat)
    (inference : Except Exc String) (tryParse : String → Option ScreenAnalysis) :
    MainResult × World × Bool :=
  let fk := fast_key_of_sources srcs prompt model_sig
  let fastHit : Option ScreenAnalysis :=
    if forceNew then none
    else match w.index fk with
      | some ck => w.store ck
      | none => none
  match fastHit with
  | some a => (MainResult.cachedResult a, w, false)
  | none =>
    let mirrored := ensure_mirrored fs now srcs
    let ck := content_key mirrored prompt model_sig
    match inference with
    | Except.error e => (MainResult.failedResult e, w, true)
    | Except.ok raw =>
      let analysis := safe_parse_model tryParse make_fallback_analysis raw
      (MainResult.freshResult analysis,
       { index := fun k => if k = fk then some ck else w.index k,
         store := fun k => if k = ck then some analysis else w.store k },
       true)

/-! ### Mirror retention pruning (_prune_mirror_dir, screen_explain.py lines 225-245) -/

/-- A file in the mirror directory as collected by _prune_mirror_dir:
name, st_size, st_mtime. -/
structure MFile where
  name : String
  size : Nat
  mtime : Nat
deriving DecidableEq, Repr

/-- Sum of the file sizes, the running total the code maintains. -/
def totalSize (l : List MFile) : Nat :=
  (l.map MFile.size).sum

/-- Stable insertion of x behind every earlier file of mtime <= x.mtime:
models one step of Python list.sort(key=mtime), which sorts ascending and
stably. -/
def insertByMtime (x : MFile) : List MFile → List MFile
  | [] => [x]
  | y :: ys => if y.mtime ≤ x.mtime then y :: insertByMtime x ys else x :: y :: ys

/-- files.sort(key=mtime): stable ascending sort, oldest first
(screen_explain.py line 235). -/
def sortByMtime : List MFile → List MFile
  | [] => []
  | x :: xs => insertByMtime x (sortByMtime xs)

/-- The first while loop (lines 237-240): while len(files) > max_files,
pop the front (oldest) file and unlink it (missing_ok=True: deletion of an
already-absent file is a no-op, so the step is total and never fails). -/
def pruneCountPass (max_files : Nat) : List MFile → List MFile
  | [] => []
  | x :: xs =>
    if max_files < (x :: xs).length then pruneCountPass max_files xs else x :: xs

/-- The second while loop (lines 242-245): while total > max_bytes and
files remain, pop the front (oldest) file and unlink it; the code keeps
total equal to the sum of the remaining sizes by subtracting each removed
size, which totalSize recomputes directly. -/
def pruneBytePass (max_bytes : Nat) : List MFile → List MFile
  | [] => []
  | x :: xs =>
    if max_bytes < totalSize (x :: xs) then pruneBytePass max_bytes xs else x :: xs

/-- _prune_mirror_dir: collect the files, sort oldest-first, then run the
file-count pass followed by the byte-size pass.  Returns the files kept. -/
def prune_mirror_dir (max_files max_bytes : Nat) (files : List MFile) : List MFile :=
  pruneBytePass max_bytes (pruneCountPass max_files (sortByMtime files))

/-- MIRROR_MAX_FILES (screen_explain.py line 80). -/
def MIRROR_MAX_FILES : Nat := 20

/-- MIRROR_MAX_BYTES (screen_explain.py line 81): 100 * 1024 * 1024. -/
def MIRROR_MAX_BYTES : Nat := 100 * 1024 * 1024

/-! ## Theorems -/

/-- C3: for every input dimension x >= 1 and every snap_multiple >= 1 and
snap_min >= 1, the dimension produced by the snap step of
_resize_percent_and_snap (snap followed by the min/max clamps of vlm.py
lines 152-157) is less than or equal to x — snapping never increases a
dimension past its pre-snap value, including when x is smaller than
snap_min (where _snap_one returns snap_min and the min clamp restores x). -/
theorem snap_never_upscales (snap_mult snap_min x : Nat)
    (hm : 1 ≤ snap_mult) (hmn : 1 ≤ snap_min) (hx : 1 ≤ x) :
    snap_step snap_mult snap_min x ≤ x := by
  unfold snap_step
  exact max_le hx (min_le_right _ _)

/-- Witness for snap_never_upscales at snap_mult = 32, snap_min = 64,
x = 10 (a dimension below the snap floor). -/
theorem snap_never_upscales_witness :
    (1 ≤ 32 ∧ 1 ≤ 64 ∧ 1 ≤ 10) ∧ snap_step 32 64 10 ≤ 10 :=
  ⟨ by decide, snap_never_upscales 32 64 10 (by decide) (by decide) (by decide)⟩

/-- C2 counterexample: with no explicit context size, the effective context
sent to the backend is DEFAULT_MAX_CTX for a small prepared image (max
dimension 64) and for a large one (max dimension 3840) alike — it is not
derived from the maximum prepared image dimension, and a smaller maximum
dimension does not yield a smaller context budget. -/
theorem auto_ctx_ignores_dimensions :
    effective_num_ctx none DEFAULT_MAX_CTX [(64, 64)] = 8196 ∧
    effective_num_ctx none DEFAULT_MAX_CTX [(3840, 2160)] = 8196 ∧
    ¬ effective_num_ctx none DEFAULT_MAX_CTX [(64, 64)] <
        effective_num_ctx none DEFAULT_MAX_CTX [(3840, 2160)] := by
  decide

/-- C2 (amended): when the caller supplies no explicit context size, the
effective context size is the configured ceiling max_ctx, independent of
the prepared image dimensions (and hence trivially never above the
ceiling); when the caller supplies an explicit positive context size, that
value is used unchanged. -/
theorem effective_ctx_explicit_or_ceiling (sizes : List (Nat × Nat))
    (max_ctx n : Nat) (hn : 0 < n) :
    effective_num_ctx none max_ctx sizes = max_ctx ∧
    effective_num_ctx (some n) max_ctx sizes = n ∧
    effective_num_ctx none max_ctx sizes ≤ max_ctx := by
  refine ⟨ rfl, ?_, le_refl _⟩
  simp [effective_num_ctx, hn]

/-- Witness for effective_ctx_explicit_or_ceiling at sizes = [(100, 100)],
max_ctx = 8196, n = 4096. -/
theorem effective_ctx_explicit_or_ceiling_witness :
    0 < 4096 ∧
    (effective_num_ctx none 8196 [(100, 100)] = 8196 ∧
     effective_num_ctx (some 4096) 8196 [(100, 100)] = 4096 ∧
     effective_num_ctx none 8196 [(100, 100)] ≤ 8196) :=
  ⟨ by decide, effective_ctx_explicit_or_ceiling [(100, 100)] 8196 4096 (by decide)⟩

/-- C5 counterexample: two single-image requests with the same prompt and
model whose files agree in basename, size and mtime but live in different
directories receive the SAME FastKey — _fast_key hashes p.name (the
basename), not the source path, so differing paths do not make FastKeys
differ. -/
theorem fast_key_ignores_directory :
    (SrcFile.mk "/home/alice/shots" "shot" ".png" 12345 777).dir ≠
      (SrcFile.mk "/home/bob/shots" "shot" ".png" 12345 777).dir ∧
    fast_key_of_sources [SrcFile.mk "/home/alice/shots" "shot" ".png" 12345 777] "p" "m" =
      fast_key_of_sources [SrcFile.mk "/home/bob/shots" "shot" ".png" 12345 777] "p" "m" := by
  decide

/-- C5 (amended): the FastKey is a digest over the model identifier, the
ordered list of (file NAME, size, mtime) triples — stat data only, with the
basename rather than the full source path — and the prompt text; two
requests whose image lists agree position-wise in basename, size and mtime
therefore get identical FastKeys even when the source directories differ. -/
theorem fast_key_depends_only_on_stats (l1 l2 : List SrcFile)
    (prompt model_sig : String)
    (h : l1.map SrcFile.stat = l2.map SrcFile.stat) :
    fast_key_of_sources l1 prompt model_sig = fast_key_of_sources l2 prompt model_sig := by
  unfold fast_key_of_sources
  rw [h]

/-- Witness for fast_key_depends_only_on_stats at the two directories of
the counterexample input. -/
theorem fast_key_depends_only_on_stats_witness :
    [SrcFile.mk "/home/alice/shots" "shot" ".png" 12345 777].map SrcFile.stat =
      [SrcFile.mk "/home/bob/shots" "shot" ".png" 12345 777].map SrcFile.stat ∧
    fast_key_of_sources [SrcFile.mk "/home/alice/shots" "shot" ".png" 12345 777] "p" "m" =
      fast_key_of_sources [SrcFile.mk "/home/bob/shots" "shot" ".png" 12345 777] "p" "m" :=
  ⟨ by decide,
    fast_key_depends_only_on_stats _ _ "p" "m" (by decide)⟩

/-- C4: the ContentKey is NOT invariant across invocations with the same
model, prompt and source bytes mirrored under the same deterministic name:
_content_key hashes the mirror file's own stat, and shutil.copyfile gives
the mirror copy the copy-time mtime, so mirroring the identical source into
an empty mirror directory at time 1000 versus time 2000 (e.g. after
retention pruning deleted the copy in between) yields different key
material and hence different ContentKeys (SHA-256 collisions aside). -/
theorem content_key_depends_on_copy_time :
    content_key (ensure_mirrored (fun _ => none) 1000 [SrcFile.mk "/src" "shot" ".png" 3 7]) "p" "m" ≠
      content_key (ensure_mirrored (fun _ => none) 2000 [SrcFile.mk "/src" "shot" ".png" 3 7]) "p" "m" := by
  decide

/-! ### Ladder lemmas -/

/-- Last element of a list, with a default for the empty list: lastD es d is
the most recent recorded error when es collects the last_err assignments in
order. -/
def lastD {α : Type} : List α → α → α
  | [], d => d
  | a :: l, _ => lastD l a

/-- Halving with the floor of 16 stays at or above the floor and strictly
decreases the effective batch, whenever the current effective batch is
above the floor. -/
theorem effBatch_halving (b : Nat) (h : 16 < effBatch b) :
    16 ≤ effBatch (max 16 (effBatch b / 2)) ∧
      effBatch (max 16 (effBatch b / 2)) < effBatch b := by
  have h16 : 16 ≤ max 16 (effBatch b / 2) := le_max_left _ _
  have hne : max 16 (effBatch b / 2) ≠ 0 := by omega
  have heq : effBatch (max 16 (effBatch b / 2)) = max 16 (effBatch b / 2) := by
    unfold effBatch
    simp [hne]
  have hdiv : effBatch b / 2 < effBatch b := Nat.div_lt_self (by omega) (by omega)
  rw [heq]
  exact ⟨ h16, max_lt h hdiv⟩

/-- When the ladder returns an error, that error is the most recent one
recorded: the last last_err assignment of the run, or the incoming last_err
(defaulting to the generic unknown-failure error) when the run recorded
none. -/
theorem runLadder_err_last (scales : List Nat) (script : List IterStep) :
    ∀ (i b : Nat) (le : Option Exc) (e : Exc) (t : List Att) (es : List Exc),
      runLadder scales script i b le = (RunResult.err e, t, es) →
      e = lastD es (le.getD Exc.unknownFailure) := by
  induction script with
  | nil =>
    intro i b le e t es h
    cases hg : scales[i]? <;> simp [runLadder, hg] at h
    obtain ⟨h1, h2, h3⟩ := h
    subst h3
    simp [lastD, h1]
  | cons step rest ih =>
    intro i b le e t es h
    cases step with
    | prepFail e1 =>
      cases hg : scales[i]?
      · simp [runLadder, hg] at h
        obtain ⟨h1, h2, h3⟩ := h
        subst h3
        simp [lastD, h1]
      · rcases hr : runLadder scales rest (i + 1) b (some e1) with ⟨r1, t1, es1⟩
        simp [runLadder, hg, hr] at h
        obtain ⟨h1, h2, h3⟩ := h
        subst h3
        have := ih (i + 1) b (some e1) e t1 es1 (by rw [hr, h1])
        simpa [lastD] using this
    | calls c1 c2 =>
      cases hg : scales[i]?
      · simp [runLadder, hg] at h
        obtain ⟨h1, h2, h3⟩ := h
        subst h3
        simp [lastD, h1]
      · cases hp : endpointPhase c1 c2 with
        | ok out =>
          cases hu : usable_output out
          · rcases hr : runLadder scales rest (i + 1) b (some (Exc.unusableOutput out)) with ⟨r1, t1, es1⟩
            simp [runLadder, hg, hp, hu, hr] at h
            obtain ⟨h1, h2, h3⟩ := h
            subst h3
            have := ih (i + 1) b (some (Exc.unusableOutput out)) e t1 es1 (by rw [hr, h1])
            simpa [lastD] using this
          · simp [runLadder, hg, hp, hu] at h
        | error e1 =>
          cases hre : is_retriable_error e1
          · simp [runLadder, hg, hp, hre] at h
            obtain ⟨h1, h2, h3⟩ := h
            subst h3
            simp [lastD, h1]
          · by_cases hb : 16 < effBatch b
            · rcases hr : runLadder scales rest i (max 16 (effBatch b / 2)) (some e1) with ⟨r1, t1, es1⟩
              simp [runLadder, hg, hp, hre, hb, hr] at h
              obtain ⟨h1, h2, h3⟩ := h
              subst h3
              have := ih i (max 16 (effBatch b / 2)) (some e1) e t1 es1 (by rw [hr, h1])
              simpa [lastD] using this
            · rcases hr : runLadder scales rest (i + 1) b (some e1) with ⟨r1, t1, es1⟩
              simp [runLadder, hg, hp, hre, hb, hr] at h
              obtain ⟨h1, h2, h3⟩ := h
              subst h3
              have := ih (i + 1) b (some e1) e t1 es1 (by rw [hr, h1])
              simpa [lastD] using this

/-- When the ladder returns a usable output, it passed the output
validation: only the usable branch of the loop returns ok. -/
theorem runLadder_ok_usable (scales : List Nat) (script : List IterStep) :
    ∀ (i b : Nat) (le : Option Exc) (out : String) (t : List Att) (es : List Exc),
      runLadder scales script i b le = (RunResult.ok out, t, es) →
      usable_output out = true := by
  induction script with
  | nil =>
    intro i b le out t es h
    cases hg : scales[i]? <;> simp [runLadder, hg] at h
  | cons step rest ih =>
    intro i b le out t es h
    cases step with
    | prepFail e1 =>
      cases hg : scales[i]?
      · simp [runLadder, hg] at h
      · rcases hr : runLadder scales rest (i + 1) b (some e1) with ⟨r1, t1, es1⟩
        simp [runLadder, hg, hr] at h
        exact ih (i + 1) b (some e1) out t1 es1 (by rw [hr, h.1])
    | calls c1 c2 =>
      cases hg : scales[i]?
      · simp [runLadder, hg] at h
      · cases hp : endpointPhase c1 c2 with
        | ok o =>
          cases hu : usable_output o
          · rcases hr : runLadder scales rest (i + 1) b (some (Exc.unusableOutput o)) with ⟨r1, t1, es1⟩
            simp [runLadder, hg, hp, hu, hr] at h
            exact ih (i + 1) b (some (Exc.unusableOutput o)) out t1 es1 (by rw [hr, h.1])
          · simp [runLadder, hg, hp, hu] at h
            rw [← h.1]
            exact hu
        | error e1 =>
          cases hre : is_retriable_error e1
          · simp [runLadder, hg, hp, hre] at h
          · by_cases hb : 16 < effBatch b
            · rcases hr : runLadder scales rest i (max 16 (effBatch b / 2)) (some e1) with ⟨r1, t1, es1⟩
              simp [runLadder, hg, hp, hre, hb, hr] at h
              exact ih i (max 16 (effBatch b / 2)) (some e1) out t1 es1 (by rw [hr, h.1])
            · rcases hr : runLadder scales rest (i + 1) b (some e1) with ⟨r1, t1, es1⟩
              simp [runLadder, hg, hp, hre, hb, hr] at h
              exact ih (i + 1) b (some e1) out t1 es1 (by rw [hr, h.1])

/-- Every attempt of a ladder run uses an effective batch bounded by the
effective batch of the starting state, and the effective batch values of
consecutive attempts are non-increasing. -/
theorem runLadder_eff_bound (scales : List Nat) (script : List IterStep) :
    ∀ (i b : Nat) (le : Option Exc),
      (∀ a ∈ (runLadder scales script i b le).2.1, a.eff ≤ effBatch b) ∧
      List.Chain' (fun a1 a2 => a2.eff ≤ a1.eff) (runLadder scales script i b le).2.1 := by
  induction script with
  | nil =>
    intro i b le
    cases hg : scales[i]? <;> simp [runLadder, hg]
  | cons step rest ih =>
    intro i b le
    cases step with
    | prepFail e1 =>
      cases hg : scales[i]?
      · simp [runLadder, hg]
      · simpa [runLadder, hg] using ih (i + 1) b (some e1)
    | calls c1 c2 =>
      cases hg : scales[i]?
      · simp [runLadder, hg]
      · cases hp : endpointPhase c1 c2 with
        | ok o =>
          cases hu : usable_output o
          · have hih := ih (i + 1) b (some (Exc.unusableOutput o))
            simp [runLadder, hg, hp, hu]
            refine ⟨ hih.1, ?_⟩
            rw [List.chain'_cons']
            refine ⟨ ?_, hih.2⟩
            intro y hy
            exact hih.1 y (List.mem_of_mem_head? hy)
          · simp [runLadder, hg, hp, hu]
        | error e1 =>
          cases hre : is_retriable_error e1
          · simp [runLadder, hg, hp, hre]
          · by_cases hb : 16 < effBatch b
            · have hhalf := effBatch_halving b hb
              have hih := ih i (max 16 (effBatch b / 2)) (some e1)
              simp [runLadder, hg, hp, hre, hb]
              refine ⟨ fun a ha => le_trans (hih.1 a ha) (le_of_lt hhalf.2), ?_⟩
              rw [List.chain'_cons']
              refine ⟨ ?_, hih.2⟩
              intro y hy
              exact le_trans (hih.1 y (List.mem_of_mem_head? hy)) (le_of_lt hhalf.2)
            · have hih := ih (i + 1) b (some e1)
              simp [runLadder, hg, hp, hre, hb]
              refine ⟨ hih.1, ?_⟩
              rw [List.chain'_cons']
              refine ⟨ ?_, hih.2⟩
              intro y hy
              exact hih.1 y (List.mem_of_mem_head? hy)

/-- C9: within a single invocation the batch value carries over across
scale changes and is never reset: the effective batch values of the
successive backend attempts of any ladder run form a non-increasing
sequence, and every attempt's effective batch is bounded by the starting
effective batch. -/
theorem batch_nonincreasing_across_invocation (scales : List Nat)
    (script : List IterStep) (i b : Nat) (le : Option Exc) :
    List.Chain' (fun a1 a2 => a2.eff ≤ a1.eff) (runLadder scales script i b le).2.1 ∧
    ((runLadder scales script i b le).2.1.all fun a => decide (a.eff ≤ effBatch b)) = true := by
  have h := runLadder_eff_bound scales script i b le
  refine ⟨ h.2, ?_⟩
  rw [List.all_eq_true]
  intro a ha
  simpa using h.1 a ha

/-- C7: when a retriable transport failure hits an attempt, the ladder
halves the effective batch (clamped to the floor 16) and retries the SAME
scale as long as the effective batch is above the floor — the new effective
batch is strictly smaller and still at least 16 — and advances to the next
scale, with the batch unchanged, exactly when the effective batch is at the
floor. -/
theorem retriable_failure_halves_batch_with_floor (scales : List Nat)
    (rest : List IterStep) (i b : Nat) (le : Option Exc) (scale : Nat)
    (c1 c2 : Except Exc String) (e : Exc)
    (hs : scales[i]? = some scale)
    (hp : endpointPhase c1 c2 = Except.error e)
    (hre : is_retriable_error e = true) :
    (16 < effBatch b →
      runLadder scales (IterStep.calls c1 c2 :: rest) i b le =
        ((runLadder scales rest i (max 16 (effBatch b / 2)) (some e)).1,
         Att.mk i scale b (effBatch b) ::
           (runLadder scales rest i (max 16 (effBatch b / 2)) (some e)).2.1,
         e :: (runLadder scales rest i (max 16 (effBatch b / 2)) (some e)).2.2) ∧
      16 ≤ effBatch (max 16 (effBatch b / 2)) ∧
      effBatch (max 16 (effBatch b / 2)) < effBatch b) ∧
    (effBatch b ≤ 16 →
      runLadder scales (IterStep.calls c1 c2 :: rest) i b le =
        ((runLadder scales rest (i + 1) b (some e)).1,
         Att.mk i scale b (effBatch b) ::
           (runLadder scales rest (i + 1) b (some e)).2.1,
         e :: (runLadder scales rest (i + 1) b (some e)).2.2)) := by
  constructor
  · intro hb
    refine ⟨ ?_, effBatch_halving b hb⟩
    simp [runLadder, hs, hp, hre, hb]
  · intro hb
    have hb2 : ¬ 16 < effBatch b := by omega
    simp [runLadder, hs, hp, hre, hb2]

/-- Witness for retriable_failure_halves_batch_with_floor: one retriable
timeout at scale 60 with effective batch 64 (above the floor). -/
theorem retriable_failure_halves_batch_with_floor_witness :
    ([60] : List Nat)[0]? = some 60 ∧
    endpointPhase (Except.error Exc.timeout) (Except.error Exc.timeout) =
      Except.error Exc.timeout ∧
    is_retriable_error Exc.timeout = true ∧
    16 < effBatch 64 ∧
    16 ≤ effBatch (max 16 (effBatch 64 / 2)) ∧
    effBatch (max 16 (effBatch 64 / 2)) < effBatch 64 := by
  refine ⟨ by decide, by decide, by decide, by decide, ?_, ?_⟩
  · exact ((retriable_failure_halves_batch_with_floor [60] [] 0 64 none 60
      (Except.error Exc.timeout) (Except.error Exc.timeout) Exc.timeout
      (by decide) (by decide) (by decide)).1 (by decide)).2.1
  · exact ((retriable_failure_halves_batch_with_floor [60] [] 0 64 none 60
      (Except.error Exc.timeout) (Except.error Exc.timeout) Exc.timeout
      (by decide) (by decide) (by decide)).1 (by decide)).2.2

/-- C6: if every ladder attempt of an invocation fails, the ladder returns
the most recent recorded error (the last last_err assignment, a single
representative error, not an aggregate), and main on a cache miss then
fails without creating any ResultStore file or CacheIndex entry — the world
is returned unchanged, so an identical later call retries from scratch. -/
theorem ladder_failure_raises_last_error_and_caches_nothing
    (scales : List Nat) (script : List IterStep) (b : Nat) (e : Exc)
    (t : List Att) (es : List Exc) (w : World) (srcs : List SrcFile)
    (prompt model_sig : String) (fs : String → Option FileStat) (now : Nat)
    (tp : String → Option ScreenAnalysis)
    (hrun : runLadder scales script 0 b none = (RunResult.err e, t, es))
    (hmiss : w.index (fast_key_of_sources srcs prompt model_sig) = none) :
    e = lastD es Exc.unknownFailure ∧
    screen_explain_main w false srcs prompt model_sig fs now (Except.error e) tp =
      (MainResult.failedResult e, w, true) := by
  constructor
  · simpa using runLadder_err_last scales script 0 b none e t es hrun
  · simp [screen_explain_main, hmiss]

/-- Witness for ladder_failure_raises_last_error_and_caches_nothing: a
single-scale ladder whose only attempt times out at the batch floor. -/
theorem ladder_failure_raises_last_error_witness :
    (runLadder [60] [IterStep.calls (Except.error Exc.timeout) (Except.error Exc.timeout)] 0 16 none =
       (RunResult.err Exc.timeout, [Att.mk 0 60 16 16], [Exc.timeout]) ∧
     (World.mk (fun _ => none) (fun _ => none)).index
       (fast_key_of_sources [SrcFile.mk "/d" "s" ".png" 1 2] "p" "m") = none) ∧
    (Exc.timeout = lastD [Exc.timeout] Exc.unknownFailure ∧
     screen_explain_main (World.mk (fun _ => none) (fun _ => none)) false
       [SrcFile.mk "/d" "s" ".png" 1 2] "p" "m" (fun _ => none) 0
       (Except.error Exc.timeout) (fun _ => none) =
       (MainResult.failedResult Exc.timeout,
        World.mk (fun _ => none) (fun _ => none), true)) :=
  ⟨⟨ by decide, rfl⟩,
   ladder_failure_raises_last_error_and_caches_nothing
     [60] [IterStep.calls (Except.error Exc.timeout) (Except.error Exc.timeout)]
     16 Exc.timeout [Att.mk 0 60 16 16] [Exc.timeout]
     (World.mk (fun _ => none) (fun _ => none))
     [SrcFile.mk "/d" "s" ".png" 1 2] "p" "m" (fun _ => none) 0 (fun _ => none)
     (by decide) rfl⟩

/-- The concrete source list of the C1 counterexample. -/
def c1srcs : List SrcFile := [SrcFile.mk "/s" "shot" ".png" 3 7]

/-- A mirror directory already holding the (deterministically named) mirror
copy of the C1 source, with the copy-time mtime 500. -/
def c1fs : String → Option FileStat := fun k =>
  if k = mirror_name_for (SrcFile.mk "/s" "shot" ".png" 3 7) 0 then
    some (FileStat.mk (mirror_name_for (SrcFile.mk "/s" "shot" ".png" 3 7) 0) 3 500)
  else none

/-- The ContentKey main computes for the C1 source against that mirror. -/
def c1ck : String := content_key (ensure_mirrored c1fs 999 c1srcs) "p" "m"

/-- A stored analysis sitting in the result store under that ContentKey. -/
def c1analysis : ScreenAnalysis := { summary := "cached" }

/-- A cache world whose index is empty (FastKey miss) but whose result
store already holds a result under the ContentKey. -/
def c1world : World :=
  { index := fun _ => none, store := fun k => if k = c1ck then some c1analysis else none }

/-- C1 counterexample: on a FastKey miss, even though a stored result
already exists under the ContentKey of the mirrored inputs, main does NOT
return it: the backend is invoked (third component true) and the outcome is
not the cached result — screen_explain.main performs no ContentKey lookup
against the result store before inference and has no backfill path. -/
theorem fast_miss_ignores_stored_content_result :
    c1world.store c1ck = some c1analysis ∧
    (screen_explain_main c1world false c1srcs "p" "m" c1fs 999
      (Except.ok "out") (fun _ => none)).2.2 = true ∧
    (screen_explain_main c1world false c1srcs "p" "m" c1fs 999
      (Except.ok "out") (fun _ => none)).1 ≠
      MainResult.cachedResult c1analysis := by
  decide

/-- C1 (amended): on a FastKey miss (with force_new false) the inputs are
mirrored and a ContentKey is computed from the mirror stats, but no
ContentKey lookup against the result store occurs: the backend is invoked
unconditionally, whether the inference subsequently succeeds or fails, and
the FastKey-to-ContentKey index entry is written only after a completed
inference (on success), never as a backfill from an existing stored
result. -/
theorem fast_miss_always_calls_backend (w : World) (srcs : List SrcFile)
    (prompt model_sig : String) (fs : String → Option FileStat) (now : Nat)
    (raw : String) (e : Exc) (tp : String → Option ScreenAnalysis)
    (hmiss : w.index (fast_key_of_sources srcs prompt model_sig) = none) :
    (screen_explain_main w false srcs prompt model_sig fs now (Except.ok raw) tp).2.2 = true ∧
    (screen_explain_main w false srcs prompt model_sig fs now (Except.error e) tp).2.2 = true ∧
    (screen_explain_main w false srcs prompt model_sig fs now (Except.ok raw) tp).2.1.index
        (fast_key_of_sources srcs prompt model_sig) =
      some (content_key (ensure_mirrored fs now srcs) prompt model_sig) ∧
    (screen_explain_main w false srcs prompt model_sig fs now (Except.error e) tp).2.1 = w := by
  refine ⟨ ?_, ?_, ?_, ?_⟩ <;> simp [screen_explain_main, hmiss]

/-- Witness for fast_miss_always_calls_backend on an empty cache world. -/
theorem fast_miss_always_calls_backend_witness :
    (World.mk (fun _ => none) (fun _ => none)).index
      (fast_key_of_sources [SrcFile.mk "/d" "s" ".png" 1 2] "p" "m") = none ∧
    ((screen_explain_main (World.mk (fun _ => none) (fun _ => none)) false
        [SrcFile.mk "/d" "s" ".png" 1 2] "p" "m" (fun _ => none) 0
        (Except.ok "hello") (fun _ => none)).2.2 = true ∧
     (screen_explain_main (World.mk (fun _ => none) (fun _ => none)) false
        [SrcFile.mk "/d" "s" ".png" 1 2] "p" "m" (fun _ => none) 0
        (Except.error Exc.timeout) (fun _ => none)).2.2 = true ∧
     (screen_explain_main (World.mk (fun _ => none) (fun _ => none)) false
        [SrcFile.mk "/d" "s" ".png" 1 2] "p" "m" (fun _ => none) 0
        (Except.ok "hello") (fun _ => none)).2.1.index
         (fast_key_of_sources [SrcFile.mk "/d" "s" ".png" 1 2] "p" "m") =
       some (content_key (ensure_mirrored (fun _ => none) 0
         [SrcFile.mk "/d" "s" ".png" 1 2]) "p" "m") ∧
     (screen_explain_main (World.mk (fun _ => none) (fun _ => none)) false
        [SrcFile.mk "/d" "s" ".png" 1 2] "p" "m" (fun _ => none) 0
        (Except.error Exc.timeout) (fun _ => none)).2.1 =
       World.mk (fun _ => none) (fun _ => none)) :=
  ⟨ rfl,
    fast_miss_always_calls_backend (World.mk (fun _ => none) (fun _ => none))
      [SrcFile.mk "/d" "s" ".png" 1 2] "p" "m" (fun _ => none) 0
      "hello" Exc.timeout (fun _ => none) rfl⟩

/-- C10: when the ladder returns a usable output that fails to parse as a
ScreenAnalysis (tp raw = none), main does not raise: it produces the
fallback analysis carrying the raw text with is_raw_error true, persists it
under the ContentKey, indexes FastKey to ContentKey exactly like a parsed
result, and a later identical call is served from the cache without any
backend invocation. -/
theorem parse_failure_fallback_is_cached
    (scales : List Nat) (script : List IterStep) (b : Nat)
    (w : World) (srcs : List SrcFile) (prompt model_sig : String)
    (fs : String → Option FileStat) (now : Nat) (raw : String)
    (t : List Att) (es : List Exc)
    (tp : String → Option ScreenAnalysis)
    (fs2 : String → Option FileStat) (now2 : Nat) (inf2 : Except Exc String)
    (tp2 : String → Option ScreenAnalysis)
    (hrun : runLadder scales script 0 b none = (RunResult.ok raw, t, es))
    (hmiss : w.index (fast_key_of_sources srcs prompt model_sig) = none)
    (hparse : tp raw = none) :
    usable_output raw = true ∧
    (screen_explain_main w false srcs prompt model_sig fs now (Except.ok raw) tp).1 =
      MainResult.freshResult (make_fallback_analysis raw) ∧
    (make_fallback_analysis raw).is_raw_error = true ∧
    (screen_explain_main w false srcs prompt model_sig fs now (Except.ok raw) tp).2.1.store
        (content_key (ensure_mirrored fs now srcs) prompt model_sig) =
      some (make_fallback_analysis raw) ∧
    (screen_explain_main w false srcs prompt model_sig fs now (Except.ok raw) tp).2.1.index
        (fast_key_of_sources srcs prompt model_sig) =
      some (content_key (ensure_mirrored fs now srcs) prompt model_sig) ∧
    screen_explain_main
        (screen_explain_main w false srcs prompt model_sig fs now (Except.ok raw) tp).2.1
        false srcs prompt model_sig fs2 now2 inf2 tp2 =
      (MainResult.cachedResult (make_fallback_analysis raw),
       (screen_explain_main w false srcs prompt model_sig fs now (Except.ok raw) tp).2.1,
       false) := by
  refine ⟨ runLadder_ok_usable scales script 0 b none raw t es hrun, ?_, rfl, ?_, ?_, ?_⟩
  · simp [screen_explain_main, hmiss, safe_parse_model, hparse]
  · simp [screen_explain_main, hmiss, safe_parse_model, hparse]
  · simp [screen_explain_main, hmiss, safe_parse_model, hparse]
  · simp [screen_explain_main, hmiss, safe_parse_model, hparse]

/-- Witness for parse_failure_fallback_is_cached: a one-scale ladder whose
single attempt answers the unparseable text "notjson". -/
theorem parse_failure_fallback_is_cached_witness :
    (runLadder [60] [IterStep.calls (Except.ok "notjson") (Except.ok "x")] 0 64 none =
       (RunResult.ok "notjson", [Att.mk 0 60 64 64], []) ∧
     (World.mk (fun _ => none) (fun _ => none)).index
       (fast_key_of_sources [SrcFile.mk "/d" "s" ".png" 1 2] "p" "m") = none ∧
     (fun _ => (none : Option ScreenAnalysis)) "notjson" = none) ∧
    (usable_output "notjson" = true ∧
     (screen_explain_main (World.mk (fun _ => none) (fun _ => none)) false
        [SrcFile.mk "/d" "s" ".png" 1 2] "p" "m" (fun _ => none) 0
        (Except.ok "notjson") (fun _ => none)).1 =
       MainResult.freshResult (make_fallback_analysis "notjson") ∧
     (make_fallback_analysis "notjson").is_raw_error = true ∧
     (screen_explain_main (World.mk (fun _ => none) (fun _ => none)) false
        [SrcFile.mk "/d" "s" ".png" 1 2] "p" "m" (fun _ => none) 0
        (Except.ok "notjson") (fun _ => none)).2.1.store
         (content_key (ensure_mirrored (fun _ => none) 0
           [SrcFile.mk "/d" "s" ".png" 1 2]) "p" "m") =
       some (make_fallback_analysis "notjson") ∧
     (screen_explain_main (World.mk (fun _ => none) (fun _ => none)) false
        [SrcFile.mk "/d" "s" ".png" 1 2] "p" "m" (fun _ => none) 0
        (Except.ok "notjson") (fun _ => none)).2.1.index
         (fast_key_of_sources [SrcFile.mk "/d" "s" ".png" 1 2] "p" "m") =
       some (content_key (ensure_mirrored (fun _ => none) 0
         [SrcFile.mk "/d" "s" ".png" 1 2]) "p" "m") ∧
     screen_explain_main
         (screen_explain_main (World.mk (fun _ => none) (fun _ => none)) false
           [SrcFile.mk "/d" "s" ".png" 1 2] "p" "m" (fun _ => none) 0
           (Except.ok "notjson") (fun _ => none)).2.1
         false [SrcFile.mk "/d" "s" ".png" 1 2] "p" "m" (fun _ => none) 1
         (Except.error Exc.timeout) (fun _ => none) =
       (MainResult.cachedResult (make_fallback_analysis "notjson"),
        (screen_explain_main (World.mk (fun _ => none) (fun _ => none)) false
          [SrcFile.mk "/d" "s" ".png" 1 2] "p" "m" (fun _ => none) 0
          (Except.ok "notjson") (fun _ => none)).2.1,
        false)) :=
  ⟨⟨ by decide, rfl, rfl⟩,
   parse_failure_fallback_is_cached [60]
     [IterStep.calls (Except.ok "notjson") (Except.ok "x")] 64
     (World.mk (fun _ => none) (fun _ => none))
     [SrcFile.mk "/d" "s" ".png" 1 2] "p" "m" (fun _ => none) 0 "notjson"
     [Att.mk 0 60 64 64] [] (fun _ => none) (fun _ => none) 1
     (Except.error Exc.timeout) (fun _ => none) (by decide) rfl rfl⟩

/-! ### Pruning lemmas (C8) -/

/-- The count pass keeps at most max_files files. -/
theorem pruneCountPass_length (m : Nat) (l : List MFile) :
    (pruneCountPass m l).length ≤ m := by
  induction l with
  | nil => simp [pruneCountPass]
  | cons x xs ih =>
    rw [pruneCountPass]
    split
    · exact ih
    · next h => omega

/-- The count pass removes a leading segment: the kept files are a suffix. -/
theorem pruneCountPass_suffix (m : Nat) (l : List MFile) :
    (pruneCountPass m l) <:+ l := by
  induction l with
  | nil => simp [pruneCountPass]
  | cons x xs ih =>
    rw [pruneCountPass]
    split
    · exact ih.trans (List.suffix_cons x xs)
    · exact List.suffix_refl _

/-- The byte pass keeps at most max_bytes total bytes (when it empties the
list, the total is zero). -/
theorem pruneBytePass_total (mb : Nat) (l : List MFile) :
    totalSize (pruneBytePass mb l) ≤ mb := by
  induction l with
  | nil => simp [pruneBytePass, totalSize]
  | cons x xs ih =>
    rw [pruneBytePass]
    split
    · exact ih
    · next h => omega

/-- The byte pass removes a leading segment: the kept files are a suffix. -/
theorem pruneBytePass_suffix (mb : Nat) (l : List MFile) :
    (pruneBytePass mb l) <:+ l := by
  induction l with
  | nil => simp [pruneBytePass]
  | cons x xs ih =>
    rw [pruneBytePass]
    split
    · exact ih.trans (List.suffix_cons x xs)
    · exact List.suffix_refl _

/-- Stable insertion produces a permutation. -/
theorem insertByMtime_perm (x : MFile) (l : List MFile) :
    List.Perm (insertByMtime x l) (x :: l) := by
  induction l with
  | nil => rfl
  | cons y ys ih =>
    rw [insertByMtime]
    split
    · exact (ih.cons y).trans (List.Perm.swap x y ys)
    · rfl

/-- The stable mtime sort is a permutation of the input. -/
theorem sortByMtime_perm (l : List MFile) : List.Perm (sortByMtime l) l := by
  induction l with
  | nil => rfl
  | cons x xs ih => exact (insertByMtime_perm x (sortByMtime xs)).trans (ih.cons x)

/-- Stable insertion preserves ascending mtime order. -/
theorem insertByMtime_pairwise (x : MFile) (l : List MFile)
    (h : List.Pairwise (fun a b => a.mtime ≤ b.mtime) l) :
    List.Pairwise (fun a b => a.mtime ≤ b.mtime) (insertByMtime x l) := by
  induction l with
  | nil => simp [insertByMtime]
  | cons y ys ih =>
    rw [List.pairwise_cons] at h
    rw [insertByMtime]
    split
    · next hle =>
      rw [List.pairwise_cons]
      refine ⟨ ?_, ih h.2⟩
      intro z hz
      rw [(insertByMtime_perm x ys).mem_iff] at hz
      rcases List.mem_cons.mp hz with hz2 | hz2
      · subst hz2
        exact hle
      · exact h.1 z hz2
    · next hgt =>
      rw [List.pairwise_cons]
      refine ⟨ ?_, List.pairwise_cons.mpr h⟩
      intro z hz
      rcases List.mem_cons.mp hz with hz | hz
      · subst hz
        omega
      · exact le_trans (by omega) (h.1 z hz)

/-- The stable mtime sort orders the files ascending: oldest first. -/
theorem sortByMtime_pairwise (l : List MFile) :
    List.Pairwise (fun a b => a.mtime ≤ b.mtime) (sortByMtime l) := by
  induction l with
  | nil => simp [sortByMtime]
  | cons x xs ih => exact insertByMtime_pairwise x (sortByMtime xs) ih

/-- C8: for every state of the mirror directory, pruning with the
configured limits (max_files = 20, max_bytes = 100 MiB) runs the
file-count pass before the byte-size pass (definitional equation), keeps at
most 20 files totalling at most 100 MiB, and deletes only a leading segment
of the oldest-first (ascending-mtime, stable) ordering of the files — the
kept files are a suffix of that ordering, which is a permutation of the
directory contents.  Deletion uses unlink(missing_ok=True), modelled as a
total operation: an already-missing file cannot make the pass fail. -/
theorem prune_mirror_bounds (files : List MFile) :
    prune_mirror_dir MIRROR_MAX_FILES MIRROR_MAX_BYTES files =
      pruneBytePass MIRROR_MAX_BYTES (pruneCountPass MIRROR_MAX_FILES (sortByMtime files)) ∧
    (prune_mirror_dir MIRROR_MAX_FILES MIRROR_MAX_BYTES files).length ≤ 20 ∧
    totalSize (prune_mirror_dir MIRROR_MAX_FILES MIRROR_MAX_BYTES files) ≤ 100 * 1024 * 1024 ∧
    prune_mirror_dir MIRROR_MAX_FILES MIRROR_MAX_BYTES files <:+ sortByMtime files ∧
    List.Perm (sortByMtime files) files ∧
    List.Pairwise (fun a b => a.mtime ≤ b.mtime) (sortByMtime files) := by
  refine ⟨ rfl, ?_, ?_, ?_, sortByMtime_perm files, sortByMtime_pairwise files⟩
  · exact le_trans
      (List.IsSuffix.length_le (pruneBytePass_suffix _ _))
      (pruneCountPass_length _ _)
  · exact pruneBytePass_total _ _
  · exact (pruneBytePass_suffix _ _).trans (pruneCountPass_suffix _ _)

end AiTools
